import Mathlib

/-!
Verification of the subscription registry, notification dispatcher,
conditional notification rules (src/server.js) and the OneSignal status
probe (src/src/utils/oneSignal.ts) of the react-push-notifications
repository.

The server keeps a global mutable array `subscriptions`; every handler is
embedded here as a pure function from the request body and the current
registry state to the HTTP response together with the updated registry
state.  Network sends (web-push and the OneSignal REST API) are abstracted
as oracle functions passed to the handler, so that theorems quantify over
every possible transport behaviour.
-/

/-- A stored push subscription record (the JSON object posted to
POST /api/subscribe).  Its identity is the `endpoint` URL; `keys` models
the optional encryption-keys object as name/value pairs — the server
stores it opaquely and only ever reads its key names
(src/server.js:215-218). -/
structure Subscription where
  endpoint : String
  keys : Option (List (String × String))
deriving DecidableEq, Repr

/-- An error response: the HTTP status code together with the `error`
field of the JSON body, as produced by `res.status(code).json(...)`. -/
structure ErrorResponse where
  status : Nat
  error : String
deriving DecidableEq, Repr

/-- Response body of a successful POST /api/subscribe
(src/server.js:84-88). -/
structure SubscribeResponse where
  success : Bool
  message : String
  totalSubscriptions : Nat
deriving DecidableEq, Repr

/-- POST /api/subscribe handler (src/server.js:56-89).  `body` is
`req.body.subscription`: `none` models an absent object and an empty
`endpoint` string models the falsy `!subscription.endpoint` check.  The
upsert scans for an existing record with the same endpoint and replaces
it in place, otherwise appends.  Returns the response together with the
updated registry. -/
def subscribeHandler (body : Option Subscription) (subs : List Subscription) :
    Except ErrorResponse SubscribeResponse × List Subscription :=
  match body with
  | none => (.error ⟨400, "Invalid subscription data"⟩, subs)
  | some s =>
    if s.endpoint = "" then
      (.error ⟨400, "Invalid subscription data"⟩, subs)
    else
      let subs' :=
        match subs.findIdx? (fun t => t.endpoint == s.endpoint) with
        | some i => subs.set i s
        | none => subs ++ [s]
      (.ok ⟨true, "Subscription saved successfully", subs'.length⟩, subs')

/-- Response body of DELETE /api/subscriptions (src/server.js:228-231).
The object passed to `res.json` has exactly the fields `success` and
`message`; the number of cleared records appears only inside the message
text. -/
structure ClearResponse where
  success : Bool
  message : String
deriving DecidableEq, Repr

/-- DELETE /api/subscriptions handler (src/server.js:223-232): resets the
registry to the empty array and reports the old count inside the message
string. -/
def clearSubscriptionsHandler (subs : List Subscription) :
    ClearResponse × List Subscription :=
  (⟨true, "Cleared " ++ toString subs.length ++ " subscriptions"⟩, [])

/-- The JSON keys of the object passed to `res.json` by the
DELETE /api/subscriptions handler (src/server.js:228-231). -/
def clearResponseKeys : List String := ["success", "message"]

/-- Endpoint redaction used by the list and dispatch handlers:
`sub.endpoint.substring(0, 50) + '...'` (src/server.js:160,216). -/
def truncateEndpoint (s : Subscription) : String :=
  s.endpoint.take 50 ++ "..."

/-- GET /api/subscriptions handler (src/server.js:212-220): the count plus
one redacted entry per record (truncated endpoint and the names of the
keys object). -/
def listSubscriptionsHandler (subs : List Subscription) :
    Nat × List (String × List String) :=
  (subs.length,
   subs.map fun s =>
     (truncateEndpoint s,
      match s.keys with
      | some ks => ks.map (fun kv => kv.1)
      | none => []))

/-- Outcome of one `webpush.sendNotification` call: the promise resolves
with a status code, or rejects with an error carrying an optional status
code and a message (src/server.js:148-180). -/
inductive SendOutcome where
  | ok (statusCode : Nat)
  | fail (statusCode : Option Nat) (message : String)
deriving DecidableEq, Repr

/-- One per-target entry of the `results` array
(src/server.js:159-163,175-180): redacted endpoint, success flag, status
code when present, error message when failed. -/
structure DispatchResult where
  subscription : String
  success : Bool
  statusCode : Option Nat
  error : Option String
deriving DecidableEq, Repr

/-- The result entry pushed on a successful send (src/server.js:159-163). -/
def successResult (s : Subscription) (code : Nat) : DispatchResult :=
  ⟨truncateEndpoint s, true, some code, none⟩

/-- The result entry pushed on a failed send (src/server.js:175-180). -/
def failureResult (s : Subscription) (code : Option Nat) (msg : String) :
    DispatchResult :=
  ⟨truncateEndpoint s, false, code, some msg⟩

/-- The send loop of POST /api/send-notification (src/server.js:141-191),
embedded with its exact index arithmetic: the loop walks the mutable
array by index; on a failure with status 410 the current element is
spliced out and the index is decremented, so after the `i++` of the `for`
header the element shifted into position `i` is processed next.  `send`
is the oracle giving each target's transport outcome.  Returns the
accumulated results array, the success and failure counters, and the
final state of the `subscriptions` array. -/
def sendLoop (send : Subscription → SendOutcome) (subs : List Subscription)
    (i : Nat) (results : List DispatchResult) (succ fcnt : Nat) :
    List DispatchResult × Nat × Nat × List Subscription :=
  if h : i < subs.length then
    let s := subs[i]
    match send s with
    | .ok code =>
      sendLoop send subs (i + 1) (results ++ [successResult s code]) (succ + 1) fcnt
    | .fail code msg =>
      if code = some 410 then
        sendLoop send (subs.eraseIdx i) i
          (results ++ [failureResult s code msg]) succ (fcnt + 1)
      else
        sendLoop send subs (i + 1)
          (results ++ [failureResult s code msg]) succ (fcnt + 1)
  else
    (results, succ, fcnt, subs)
termination_by subs.length - i
decreasing_by
  · omega
  · have : (subs.eraseIdx i).length = subs.length - 1 := by
      rw [List.length_eraseIdx]
      simp [h]
    omega
  · omega

/-- The per-target result the loop records for `s`, as a function of the
transport outcome. -/
def resultFor (send : Subscription → SendOutcome) (s : Subscription) :
    DispatchResult :=
  match send s with
  | .ok code => successResult s code
  | .fail code msg => failureResult s code msg

/-- Whether the send for `s` resolves successfully. -/
def sendOk (send : Subscription → SendOutcome) (s : Subscription) : Bool :=
  match send s with
  | .ok _ => true
  | .fail _ _ => false

/-- Whether the send for `s` rejects with status 410 Gone, the
permanent-invalidity signal that makes the loop splice the record out
(src/server.js:185-189). -/
def isGone (send : Subscription → SendOutcome) (s : Subscription) : Bool :=
  match send s with
  | .ok _ => false
  | .fail code _ => code == some 410

/-- Structural restatement of the send loop: process the targets in
order, recording one result per target and keeping every target whose
send does not reject with status 410. -/
def processTargets (send : Subscription → SendOutcome) :
    List Subscription → List DispatchResult × Nat × Nat × List Subscription
  | [] => ([], 0, 0, [])
  | s :: rest =>
    let r := processTargets send rest
    match send s with
    | .ok code =>
      (successResult s code :: r.1, r.2.1 + 1, r.2.2.1, s :: r.2.2.2)
    | .fail code msg =>
      (failureResult s code msg :: r.1, r.2.1, r.2.2.1 + 1,
       if code = some 410 then r.2.2.2 else s :: r.2.2.2)

/-- Per-dispatch summary object (src/server.js:203-207). -/
structure DispatchSummary where
  total : Nat
  successful : Nat
  failed : Nat
deriving DecidableEq, Repr

/-- Response body of a completed POST /api/send-notification
(src/server.js:199-208). -/
structure SendResponse where
  success : Bool
  message : String
  results : List DispatchResult
  summary : DispatchSummary
deriving DecidableEq, Repr

/-- POST /api/send-notification handler (src/server.js:92-209): fails fast
with HTTP 400 when the registry is empty (src/server.js:97-103); otherwise
runs the send loop over the registry and reports `success` iff at least
one send succeeded (src/server.js:199-208).  Returns the response together
with the updated registry. -/
def sendNotificationHandler (send : Subscription → SendOutcome)
    (subs : List Subscription) :
    Except ErrorResponse SendResponse × List Subscription :=
  if subs.length = 0 then
    (.error ⟨400, "No subscriptions available"⟩, subs)
  else
    let r := sendLoop send subs 0 [] 0 0
    (.ok ⟨decide (0 < r.2.1),
          "Push sent to " ++ toString r.2.1 ++ "/" ++ toString r.1.length
            ++ " subscribers",
          r.1,
          ⟨r.1.length, r.2.1, r.2.2.1⟩⟩,
     r.2.2.2)

/-- JavaScript truthiness of an optional string: `undefined`/`null` and
the empty string are falsy. -/
def truthyStr : Option String → Bool
  | none => false
  | some s => !(s == "")

/-- The part of a OneSignal notification-creation body the conditional
endpoints vary: heading, contents, and the target selector.  `userId`
truthy selects `include_player_ids = [userId]`, otherwise the broadcast
segment `included_segments = ['Subscribed Users']`
(src/server.js:414-422,501-505,572-576). -/
structure OneSignalPayload where
  heading : String
  content : String
  includePlayerIds : Option (List String)
  includedSegments : Option (List String)
deriving DecidableEq, Repr

/-- Builds the targeted or broadcast payload from an optional user id,
following the `if (userId)` truthiness checks of the three conditional
endpoints. -/
def mkTargeted (heading content : String) (userId : Option String) :
    OneSignalPayload :=
  if truthyStr userId then
    ⟨heading, content, some [userId.getD ""], none⟩
  else
    ⟨heading, content, none, some ["Subscribed Users"]⟩

/-- The fields shared by the JSON responses of the three conditional
endpoints (src/server.js:377-381,439-445, etc.): the `success` flag, the
`message`, and whether a notification was sent. -/
structure RuleResponse where
  success : Bool
  message : String
  notified : Bool
deriving DecidableEq, Repr

/-- Request body of POST /api/trading-signal (src/server.js:363-371).
Numeric fields are modelled as integers; `userId` defaults to `null`. -/
structure TradingSignal where
  symbol : String
  price : Int
  action : String
  confidence : Int
  stopLoss : Int
  takeProfit : Int
  userId : Option String
deriving DecidableEq, Repr

/-- The notification payload POST /api/trading-signal builds for a signal
that passes the confidence check (src/server.js:385-422): the title names
the upper-cased action and the symbol, and the message encodes symbol,
price, confidence, stop-loss and take-profit. -/
def tradingPayload (sig : TradingSignal) : OneSignalPayload :=
  mkTargeted
    ("🎯 " ++ sig.action.toUpper ++ " Signal: " ++ sig.symbol)
    (sig.symbol ++ " at $" ++ toString sig.price ++ " | Confidence: "
      ++ toString sig.confidence ++ "% | SL: $" ++ toString sig.stopLoss
      ++ " | TP: $" ++ toString sig.takeProfit)
    sig.userId

/-- POST /api/trading-signal handler (src/server.js:360-454), with the
OneSignal REST call abstracted as the oracle `api` (`true` = the HTTP
response was ok).  Returns the response together with the list of
payloads actually posted to the vendor. -/
def tradingSignalHandler (api : OneSignalPayload → Bool)
    (sig : TradingSignal) :
    Except ErrorResponse RuleResponse × List OneSignalPayload :=
  if sig.confidence < 75 then
    (.ok ⟨true, "Signal received but confidence too low for notification",
          false⟩, [])
  else
    let payload := tradingPayload sig
    if api payload then
      (.ok ⟨true, "Trading signal processed and notification sent", true⟩,
       [payload])
    else
      (.error ⟨500, "Trading signal notification failed"⟩, [payload])

/-- Request body of POST /api/price-alert (src/server.js:460). -/
structure PriceAlert where
  symbol : String
  currentPrice : Int
  targetPrice : Int
  alertType : String
  userId : Option String
deriving DecidableEq, Repr

/-- The alert condition of POST /api/price-alert (src/server.js:467-473):
`above` fires when the current price is at or above the target, `below`
when it is at or below; any other alert type never fires. -/
def shouldAlert (a : PriceAlert) : Bool :=
  if a.alertType == "above" && decide (a.targetPrice ≤ a.currentPrice) then
    true
  else if a.alertType == "below" && decide (a.currentPrice ≤ a.targetPrice) then
    true
  else
    false

/-- The alert message built alongside the condition check
(src/server.js:467-473). -/
def alertMessage (a : PriceAlert) : String :=
  if a.alertType == "above" && decide (a.targetPrice ≤ a.currentPrice) then
    a.symbol ++ " reached $" ++ toString a.currentPrice
      ++ " (above target $" ++ toString a.targetPrice ++ ")"
  else if a.alertType == "below" && decide (a.currentPrice ≤ a.targetPrice) then
    a.symbol ++ " dropped to $" ++ toString a.currentPrice
      ++ " (below target $" ++ toString a.targetPrice ++ ")"
  else
    ""

/-- POST /api/price-alert handler (src/server.js:457-537) with the
OneSignal REST call abstracted as the oracle `api`.  Returns the response
together with the list of payloads actually posted. -/
def priceAlertHandler (api : OneSignalPayload → Bool) (a : PriceAlert) :
    Except ErrorResponse RuleResponse × List OneSignalPayload :=
  if !shouldAlert a then
    (.ok ⟨true, "Price checked but alert conditions not met", false⟩, [])
  else
    let payload := mkTargeted ("🚨 Price Alert: " ++ a.symbol)
      (alertMessage a) a.userId
    if api payload then
      (.ok ⟨true, "Price alert triggered and notification sent", true⟩,
       [payload])
    else
      (.error ⟨500, "Price alert notification failed"⟩, [payload])

/-- Request body of POST /api/market-event (src/server.js:543): `severity`
defaults to `'normal'` when absent, an empty `title` models a falsy one. -/
structure MarketEvent where
  eventType : String
  title : String
  message : String
  severity : Option String
  userId : Option String
deriving DecidableEq, Repr

/-- POST /api/market-event handler (src/server.js:540-608): `low` severity
is suppressed; otherwise the title gets the 🚨 icon on `high` severity and
the 📊 icon on every other tier, and the payload is posted via the oracle
`api`. -/
def marketEventHandler (api : OneSignalPayload → Bool) (e : MarketEvent) :
    Except ErrorResponse RuleResponse × List OneSignalPayload :=
  let severity := e.severity.getD "normal"
  if severity == "low" then
    (.ok ⟨true, "Event received but severity too low for notification",
          false⟩, [])
  else
    let eventTitle := if e.title == "" then "📈 Market Event: " ++ e.eventType
      else e.title
    let eventIcon := if severity == "high" then "🚨" else "📊"
    let payload := mkTargeted (eventIcon ++ " " ++ eventTitle) e.message
      e.userId
    if api payload then
      (.ok ⟨true, "Market event processed and notification sent", true⟩,
       [payload])
    else
      (.error ⟨500, "Market event notification failed"⟩, [payload])

/-- The status record returned by getOneSignalStatus
(src/src/utils/oneSignal.ts:570-577). -/
structure OneSignalStatus where
  isSupported : Bool
  isInitialized : Bool
  isPushSupported : Bool
  notificationPermission : String
  isSubscribed : Bool
  userId : Option String
deriving DecidableEq, Repr

/-- Environment oracle for getOneSignalStatus: what each guarded probe
block of the function evaluates to.  `Except.error` models the block
throwing (every block is wrapped in its own try/catch).  `userIdProbe`
returning `some none` models the ladder finding no user id;
`browserPermission` is the value of `Notification.permission` read in the
permission fallback. -/
structure OneSignalEnv where
  hasOneSignal : Bool
  pushSupportedProbe : Except String Bool
  permissionProbe : Except String String
  browserPermission : String
  subscriptionProbe : Except String Bool
  userIdProbe : Except String (Option String)

/-- getOneSignalStatus (src/src/utils/oneSignal.ts:570-686): each probe
falls back on failure (`isPushSupported := true`, the browser permission,
`isSubscribed := false`, `userId := undefined`), and at the end the
status-override step (lines 659-663) forces `isSubscribed := true`
whenever it is still false but a truthy user id was obtained. -/
def getOneSignalStatus (env : OneSignalEnv) : OneSignalStatus :=
  if !env.hasOneSignal then
    ⟨false, false, false, "default", false, none⟩
  else
    let isPushSupported := match env.pushSupportedProbe with
      | .ok b => b
      | .error _ => true
    let notificationPermission := match env.permissionProbe with
      | .ok p => p
      | .error _ =>
        if env.browserPermission == "" then "default"
        else env.browserPermission
    let isSubscribedRead := match env.subscriptionProbe with
      | .ok b => b
      | .error _ => false
    let userId := match env.userIdProbe with
      | .ok u => u
      | .error _ => none
    let isSubscribed :=
      if !isSubscribedRead && truthyStr userId then true else isSubscribedRead
    ⟨true, true, isPushSupported, notificationPermission, isSubscribed,
     userId⟩

/-- Concrete subscription A used in the broadcast scenario. -/
def subA : Subscription :=
  ⟨"https://push.example.org/send/subscription-A", none⟩

/-- Concrete subscription B used in the broadcast scenario. -/
def subB : Subscription :=
  ⟨"https://push.example.org/send/subscription-B", none⟩

/-- Transport oracle for the broadcast scenario: A's send resolves with
status 201, B's send rejects with 410 Gone. -/
def sendAB (s : Subscription) : SendOutcome :=
  if s.endpoint == subA.endpoint then .ok 201 else .fail (some 410) "Gone"

/-- A resubscription carrying the endpoint of A with rotated keys, used to
exercise the replace-in-place branch of the upsert. -/
def subA2 : Subscription :=
  ⟨"https://push.example.org/send/subscription-A",
   some [("p256dh", "rotated-key"), ("auth", "rotated-auth")]⟩

/-- A trading signal one point below the confidence threshold. -/
def sigLow : TradingSignal :=
  ⟨"BTCUSD", 67250, "buy", 74, 66000, 69000, none⟩

/-- A trading signal exactly at the confidence threshold. -/
def sigHigh : TradingSignal :=
  ⟨"BTCUSD", 67250, "buy", 75, 66000, 69000, none⟩

/-- An `above` price alert with the current price exactly at the target. -/
def alertAtTarget : PriceAlert := ⟨"ETHUSD", 100, 100, "above", none⟩

/-- An `above` price alert with the current price just below the target. -/
def alertBelowTarget : PriceAlert := ⟨"ETHUSD", 99, 100, "above", none⟩

/-- A high-severity market event with no explicit title. -/
def eventHigh : MarketEvent :=
  ⟨"halving", "", "Block reward halved", some "high", none⟩

/-- A normal-severity market event with no explicit title. -/
def eventNormal : MarketEvent :=
  ⟨"rebound", "", "Market rebounded", some "normal", none⟩

/-- A low-severity market event. -/
def eventLow : MarketEvent :=
  ⟨"drift", "", "Sideways drift", some "low", none⟩

/-- Transport oracle that rejects every send with a non-410 status. -/
def sendAllFail (_ : Subscription) : SendOutcome :=
  .fail (some 500) "Push service error"

/-- OneSignal oracle whose REST call always returns ok. -/
def apiAlwaysOk (_ : OneSignalPayload) : Bool := true

/-- Environment in which the subscription-status probe reads `false` but
the user-id ladder yields a nonempty id. -/
def envOverride : OneSignalEnv :=
  ⟨true, .ok true, .ok "granted", "granted", .ok false, .ok (some "user-123")⟩

/-- Closed form of `processTargets`: the results are the per-target
records in order, the counters count the successful and failed sends,
and the surviving registry is the original list with the 410-rejected
records filtered out. -/
theorem processTargets_spec (send : Subscription → SendOutcome)
    (l : List Subscription) :
    processTargets send l =
      (l.map (resultFor send),
       (l.filter (fun s => sendOk send s)).length,
       (l.filter (fun s => !sendOk send s)).length,
       l.filter (fun s => !isGone send s)) := by
  induction l with
  | nil => rfl
  | cons s rest ih =>
    simp only [processTargets, ih, List.map_cons, List.filter_cons]
    cases hs : send s with
    | ok code =>
      simp [resultFor, sendOk, isGone, hs]
    | fail code msg =>
      by_cases hc : code = some 410
      · simp [resultFor, sendOk, isGone, hs, hc]
      · simp [resultFor, sendOk, isGone, hs, hc]

/-- Dropping `i` elements from an array just spliced at `i` skips past
the removed position: what remains to process is the original tail. -/
theorem drop_eraseIdx_self {α : Type} (l : List α) (i : Nat)
    (h : i < l.length) :
    (l.eraseIdx i).drop i = l.drop (i + 1) := by
  rw [List.eraseIdx_eq_take_drop_succ, List.drop_append_eq_append_drop]
  simp [List.drop_take, List.length_take, Nat.min_eq_left h.le]

/-- Splicing at `i` leaves the first `i` elements untouched. -/
theorem take_eraseIdx_self {α : Type} (l : List α) (i : Nat)
    (h : i < l.length) :
    (l.eraseIdx i).take i = l.take i := by
  rw [List.eraseIdx_eq_take_drop_succ,
      List.take_append_of_le_length (by simp [List.length_take]; omega),
      List.take_take]
  simp

/-- The index-based send loop computes exactly the structural fold over
the unprocessed suffix: results are appended in order, the counters add
up, and the final array is the processed prefix (already filtered)
followed by the survivors of the suffix. -/
theorem sendLoop_eq_processTargets (send : Subscription → SendOutcome) :
    ∀ (n : Nat) (subs : List Subscription) (i : Nat)
      (results : List DispatchResult) (succ fcnt : Nat),
      subs.length - i ≤ n →
      sendLoop send subs i results succ fcnt =
        (results ++ (processTargets send (subs.drop i)).1,
         succ + (processTargets send (subs.drop i)).2.1,
         fcnt + (processTargets send (subs.drop i)).2.2.1,
         subs.take i ++ (processTargets send (subs.drop i)).2.2.2) := by
  intro n
  induction n with
  | zero =>
    intro subs i results succ fcnt hn
    have hle : subs.length ≤ i := by omega
    rw [sendLoop]
    simp [Nat.not_lt.mpr hle, List.drop_eq_nil_of_le hle, processTargets,
          List.take_of_length_le hle]
  | succ n ih =>
    intro subs i results succ fcnt hn
    rw [sendLoop]
    by_cases h : i < subs.length
    · simp only [dif_pos h]
      have hdrop : subs.drop i = subs[i] :: subs.drop (i + 1) :=
        List.drop_eq_getElem_cons h
      have htake : subs.take (i + 1) = subs.take i ++ [subs[i]] := by
        rw [List.take_succ]
        simp [List.getElem?_eq_getElem h]
      cases hs : send subs[i] with
      | ok code =>
        dsimp only
        rw [ih subs (i + 1) (results ++ [successResult subs[i] code])
              (succ + 1) fcnt (by omega)]
        rw [hdrop]
        simp only [processTargets, hs]
        simp [Nat.add_assoc, Nat.add_comm, Nat.add_left_comm]
        rw [htake, List.append_assoc]
        rfl
      | fail code msg =>
        dsimp only
        by_cases hc : code = some 410
        · simp only [if_pos hc]
          have hlen : (subs.eraseIdx i).length = subs.length - 1 :=
            List.length_eraseIdx_of_lt h
          rw [ih (subs.eraseIdx i) i
                (results ++ [failureResult subs[i] code msg]) succ (fcnt + 1)
                (by omega)]
          rw [drop_eraseIdx_self subs i h, take_eraseIdx_self subs i h, hdrop]
          simp only [processTargets, hs, if_pos hc]
          simp [Nat.add_assoc, Nat.add_comm, Nat.add_left_comm]
        · simp only [if_neg hc]
          rw [ih subs (i + 1) (results ++ [failureResult subs[i] code msg])
                succ (fcnt + 1) (by omega)]
          rw [hdrop]
          simp only [processTargets, hs, if_neg hc]
          simp [Nat.add_assoc, Nat.add_comm, Nat.add_left_comm]
          rw [htake, List.append_assoc]
          rfl
    · simp only [dif_neg h]
      have hle : subs.length ≤ i := Nat.not_lt.mp h
      simp [List.drop_eq_nil_of_le hle, processTargets,
            List.take_of_length_le hle]

/-- The send loop as the handler invokes it: starting at index 0 with
empty accumulators, it records one result per registry entry in order,
counts successes and failures, and keeps exactly the records whose send
did not reject with 410. -/
theorem sendLoop_zero (send : Subscription → SendOutcome)
    (subs : List Subscription) :
    sendLoop send subs 0 [] 0 0 =
      (subs.map (resultFor send),
       (subs.filter (fun s => sendOk send s)).length,
       (subs.filter (fun s => !sendOk send s)).length,
       subs.filter (fun s => !isGone send s)) := by
  rw [sendLoop_eq_processTargets send subs.length subs 0 [] 0 0 (by omega)]
  simp [processTargets_spec]

/-- Splitting a list by a Boolean predicate preserves its length. -/
theorem filter_length_add_filter_not_length {α : Type} (p : α → Bool)
    (l : List α) :
    (l.filter p).length + (l.filter (fun a => !p a)).length = l.length := by
  induction l with
  | nil => rfl
  | cons a l ih =>
    by_cases h : p a = true <;> simp [List.filter_cons, h, ← ih] <;> omega

/-- Closed form of the dispatch handler on a non-empty registry: the
response is built from the per-target results and the success/failure
counts, and the new registry keeps exactly the records whose send did not
reject with 410. -/
theorem sendNotificationHandler_eq (send : Subscription → SendOutcome)
    (subs : List Subscription) (h : subs ≠ []) :
    sendNotificationHandler send subs =
      (.ok ⟨decide (0 < (subs.filter (fun s => sendOk send s)).length),
            "Push sent to "
              ++ toString (subs.filter (fun s => sendOk send s)).length
              ++ "/" ++ toString subs.length ++ " subscribers",
            subs.map (resultFor send),
            ⟨subs.length,
             (subs.filter (fun s => sendOk send s)).length,
             (subs.filter (fun s => !sendOk send s)).length⟩⟩,
       subs.filter (fun s => !isGone send s)) := by
  have hlen : ¬subs.length = 0 := by
    simpa [List.length_eq_zero] using h
  simp only [sendNotificationHandler, if_neg hlen, sendLoop_zero,
             List.length_map]

/-- C1: for every dispatch over a non-empty registry, every target present
at the start yields exactly one DispatchResult in order (per-target
failures are recorded, never abort the batch), and the summary satisfies
successful + failed = total = the number of targets at the start, even
when 410-invalid targets are spliced out of the registry mid-batch. -/
theorem dispatch_processes_every_target (send : Subscription → SendOutcome)
    (subs : List Subscription) (h : subs ≠ []) :
    ∃ resp newSubs,
      sendNotificationHandler send subs = (.ok resp, newSubs) ∧
      resp.results = subs.map (resultFor send) ∧
      resp.results.length = subs.length ∧
      resp.summary.total = subs.length ∧
      resp.summary.successful + resp.summary.failed = resp.summary.total := by
  rw [sendNotificationHandler_eq send subs h]
  refine ⟨_, _, rfl, rfl, by simp, rfl, ?_⟩
  simpa using filter_length_add_filter_not_length (fun s => sendOk send s) subs

/-- Witness for C1: the two-subscriber broadcast where A succeeds and B is
permanently invalid. -/
theorem dispatch_processes_every_target_witness :
    [subA, subB] ≠ [] ∧
    (∃ resp newSubs,
      sendNotificationHandler sendAB [subA, subB] = (.ok resp, newSubs) ∧
      resp.results = [subA, subB].map (resultFor sendAB) ∧
      resp.results.length = [subA, subB].length ∧
      resp.summary.total = [subA, subB].length ∧
      resp.summary.successful + resp.summary.failed = resp.summary.total) :=
  ⟨by decide, dispatch_processes_every_target sendAB [subA, subB] (by decide)⟩

/-- C4: a dispatch invoked on an empty registry fails fast with the
"No subscriptions available" error (HTTP 400) before attempting any send,
while a completed dispatch in which every send failed returns an ok
response with success = false — the two outcomes are distinguishable. -/
theorem dispatch_empty_fails_fast (send : Subscription → SendOutcome)
    (subs : List Subscription) :
    (subs = [] →
      sendNotificationHandler send subs =
        (.error ⟨400, "No subscriptions available"⟩, subs)) ∧
    (subs ≠ [] → (∀ s ∈ subs, sendOk send s = false) →
      ∃ resp newSubs,
        sendNotificationHandler send subs = (.ok resp, newSubs) ∧
        resp.success = false ∧
        resp.summary.failed = subs.length) := by
  constructor
  · intro he
    subst he
    rfl
  · intro hne hfail
    rw [sendNotificationHandler_eq send subs hne]
    have h0 : subs.filter (fun s => sendOk send s) = [] :=
      List.filter_eq_nil_iff.mpr (by intro a ha; simp [hfail a ha])
    have h1 : subs.filter (fun s => !sendOk send s) = subs :=
      List.filter_eq_self.mpr (by intro a ha; simp [hfail a ha])
    refine ⟨_, _, rfl, ?_, ?_⟩
    · simp [h0]
    · simp [h1]

/-- Witness for C4: the empty registry errors out; a one-subscriber batch
whose only send fails completes with success = false. -/
theorem dispatch_empty_fails_fast_witness :
    sendNotificationHandler sendAllFail ([] : List Subscription) =
      (.error ⟨400, "No subscriptions available"⟩, []) ∧
    (∃ resp newSubs,
      sendNotificationHandler sendAllFail [subA] = (.ok resp, newSubs) ∧
      resp.success = false ∧
      resp.summary.failed = [subA].length) :=
  ⟨(dispatch_empty_fails_fast sendAllFail []).1 rfl,
   (dispatch_empty_fails_fast sendAllFail [subA]).2 (by decide) (by decide)⟩

/-- C10: on a non-empty registry the top-level success flag is true iff at
least one per-target send succeeded; a batch in which every send fails
still completes and returns success = false with the exact counts. -/
theorem dispatch_success_iff_any (send : Subscription → SendOutcome)
    (subs : List Subscription) (h : subs ≠ []) :
    ∃ resp newSubs,
      sendNotificationHandler send subs = (.ok resp, newSubs) ∧
      (resp.success = true ↔ 1 ≤ resp.summary.successful) ∧
      ((∀ s ∈ subs, sendOk send s = false) →
        resp.success = false ∧ resp.summary.successful = 0 ∧
        resp.summary.failed = subs.length ∧
        resp.summary.total = subs.length) := by
  rw [sendNotificationHandler_eq send subs h]
  refine ⟨_, _, rfl, ?_, ?_⟩
  · simp only [decide_eq_true_eq]
    omega
  · intro hfail
    have h0 : subs.filter (fun s => sendOk send s) = [] :=
      List.filter_eq_nil_iff.mpr (by intro a ha; simp [hfail a ha])
    have h1 : subs.filter (fun s => !sendOk send s) = subs :=
      List.filter_eq_self.mpr (by intro a ha; simp [hfail a ha])
    simp [h0, h1]

/-- Witness for C10: a two-subscriber batch in which every send fails. -/
theorem dispatch_success_iff_any_witness :
    ∃ resp newSubs,
      sendNotificationHandler sendAllFail [subA, subB] = (.ok resp, newSubs) ∧
      (resp.success = true ↔ 1 ≤ resp.summary.successful) ∧
      ((∀ s ∈ [subA, subB], sendOk sendAllFail s = false) →
        resp.success = false ∧ resp.summary.successful = 0 ∧
        resp.summary.failed = [subA, subB].length ∧
        resp.summary.total = [subA, subB].length) :=
  dispatch_success_iff_any sendAllFail [subA, subB] (by decide)

/-- C2: a target whose send rejects with status 410 is removed from the
registry by the dispatch and is absent afterwards; in the concrete
broadcast scenario (A succeeds with 201, B rejects with 410 Gone) the
summary is total 2, successful 1, failed 1, and the registry — and hence
the next list() call — afterwards contains only A. -/
theorem gone_target_purged (send : Subscription → SendOutcome)
    (subs : List Subscription) (s : Subscription)
    (hmem : s ∈ subs) (hgone : isGone send s = true) :
    s ∉ (sendNotificationHandler send subs).2 ∧
    sendNotificationHandler sendAB [subA, subB] =
      (.ok ⟨true, "Push sent to 1/2 subscribers",
            [successResult subA 201, failureResult subB (some 410) "Gone"],
            ⟨2, 1, 1⟩⟩,
       [subA]) ∧
    listSubscriptionsHandler (sendNotificationHandler sendAB [subA, subB]).2 =
      (1, [(truncateEndpoint subA, [])]) := by
  have hAB : sendNotificationHandler sendAB [subA, subB] =
      (.ok ⟨true, "Push sent to 1/2 subscribers",
            [successResult subA 201, failureResult subB (some 410) "Gone"],
            ⟨2, 1, 1⟩⟩,
       [subA]) := by
    rw [sendNotificationHandler_eq sendAB [subA, subB] (by decide)]
    rfl
  refine ⟨?_, hAB, by rw [hAB]; rfl⟩
  rw [sendNotificationHandler_eq send subs (List.ne_nil_of_mem hmem)]
  intro hx
  have := (List.mem_filter.mp hx).2
  rw [hgone] at this
  cases this

/-- Witness for C2: subscription B is 410-rejected in the scenario and is
indeed absent from the registry after the dispatch. -/
theorem gone_target_purged_witness :
    subB ∈ [subA, subB] ∧ isGone sendAB subB = true ∧
    subB ∉ (sendNotificationHandler sendAB [subA, subB]).2 :=
  ⟨by decide, by decide,
   (gone_target_purged sendAB [subA, subB] subB (by decide) (by decide)).1⟩

/-- C3: upserting a subscription whose endpoint matches an existing record
replaces that record in place (the registry becomes the old one with the
incoming record written over the matching slot) and leaves the count
unchanged, while a fresh endpoint appends the record and increases the
count by exactly 1; in both cases the call succeeds and the response
reports the resulting total count. -/
theorem upsert_count (s : Subscription) (subs : List Subscription)
    (hne : s.endpoint ≠ "") :
    ∃ resp newSubs,
      subscribeHandler (some s) subs = (.ok resp, newSubs) ∧
      resp.success = true ∧
      resp.totalSubscriptions = newSubs.length ∧
      ((∃ t ∈ subs, t.endpoint = s.endpoint) →
        ∃ i, ∃ hi : i < subs.length,
          (subs.get ⟨i, hi⟩).endpoint = s.endpoint ∧
          newSubs = subs.set i s ∧
          newSubs.length = subs.length) ∧
      ((∀ t ∈ subs, t.endpoint ≠ s.endpoint) →
        newSubs = subs ++ [s] ∧
        newSubs.length = subs.length + 1) := by
  simp only [subscribeHandler, if_neg hne]
  cases hidx : subs.findIdx? (fun t => t.endpoint == s.endpoint) with
  | some i =>
    obtain ⟨hi, hp, -⟩ := List.findIdx?_eq_some_iff_getElem.mp hidx
    refine ⟨_, _, rfl, rfl, rfl, fun _ => ⟨i, hi, ?_, rfl, by simp⟩,
            fun hnone => ?_⟩
    · simpa using hp
    · have hnoneidx :
          subs.findIdx? (fun t => t.endpoint == s.endpoint) = none :=
        List.findIdx?_eq_none_iff.mpr
          (by intro t ht; simpa using hnone t ht)
      rw [hidx] at hnoneidx
      cases hnoneidx
  | none =>
    refine ⟨_, _, rfl, rfl, rfl, ?_, fun _ => ⟨rfl, by simp⟩⟩
    rintro ⟨t, ht, heq⟩
    have := List.findIdx?_eq_none_iff.mp hidx t ht
    simp [heq] at this

/-- Witness for C3: upserting the rotated-key record, whose endpoint
matches the stored record A, over the registry that already holds A — the
existing-key condition holds at this input, the record is replaced in
place, and the count stays 1. -/
theorem upsert_count_witness :
    subA2.endpoint ≠ "" ∧
    (∃ t ∈ [subA], t.endpoint = subA2.endpoint) ∧
    subscribeHandler (some subA2) [subA] =
      (.ok ⟨true, "Subscription saved successfully", 1⟩, [subA2]) ∧
    (∃ resp newSubs,
      subscribeHandler (some subA2) [subA] = (.ok resp, newSubs) ∧
      resp.success = true ∧
      resp.totalSubscriptions = newSubs.length ∧
      ((∃ t ∈ [subA], t.endpoint = subA2.endpoint) →
        ∃ i, ∃ hi : i < [subA].length,
          (([subA].get ⟨i, hi⟩)).endpoint = subA2.endpoint ∧
          newSubs = [subA].set i subA2 ∧
          newSubs.length = [subA].length) ∧
      ((∀ t ∈ [subA], t.endpoint ≠ subA2.endpoint) →
        newSubs = [subA] ++ [subA2] ∧
        newSubs.length = [subA].length + 1)) :=
  ⟨by decide, ⟨subA, by simp, by decide⟩, rfl,
   upsert_count subA2 [subA] (by decide)⟩

/-- Counterexample for C8: the DELETE /api/subscriptions response object
has exactly the keys success and message — there is no clearedCount
field; clearing a one-record registry yields success = true and the
message "Cleared 1 subscriptions", with the count only inside the message
text. -/
theorem clear_response_has_no_clearedCount :
    "clearedCount" ∉ clearResponseKeys ∧
    clearSubscriptionsHandler [subA] =
      (⟨true, "Cleared 1 subscriptions"⟩, []) := by
  constructor
  · decide
  · rfl

/-- C8 (amended): the Clear all operation empties the registry and its
response carries a success flag together with a message that embeds the
number of records removed (there is no separate clearedCount field). -/
theorem clear_empties_registry (subs : List Subscription) :
    clearSubscriptionsHandler subs =
      (⟨true, "Cleared " ++ toString subs.length ++ " subscriptions"⟩,
       []) := rfl

/-- C5: a trading signal with confidence below 75 is suppressed (response
notified = false, nothing posted); at confidence 75 or above the payload
encoding symbol, price, action, stop-loss and take-profit is posted, and
when the vendor call succeeds the response has notified = true.  The
boundary is inclusive: confidence 74 suppresses, confidence 75 notifies. -/
theorem trading_signal_threshold (api : OneSignalPayload → Bool)
    (sig : TradingSignal) :
    (sig.confidence < 75 →
      tradingSignalHandler api sig =
        (.ok ⟨true, "Signal received but confidence too low for notification",
              false⟩, [])) ∧
    (75 ≤ sig.confidence →
      (tradingSignalHandler api sig).2 = [tradingPayload sig] ∧
      (tradingPayload sig).content =
        sig.symbol ++ " at $" ++ toString sig.price ++ " | Confidence: "
          ++ toString sig.confidence ++ "% | SL: $" ++ toString sig.stopLoss
          ++ " | TP: $" ++ toString sig.takeProfit ∧
      (tradingPayload sig).heading =
        "🎯 " ++ sig.action.toUpper ++ " Signal: " ++ sig.symbol ∧
      (api (tradingPayload sig) = true →
        (tradingSignalHandler api sig).1 =
          .ok ⟨true, "Trading signal processed and notification sent",
               true⟩)) ∧
    tradingSignalHandler apiAlwaysOk sigLow =
      (.ok ⟨true, "Signal received but confidence too low for notification",
            false⟩, []) ∧
    tradingSignalHandler apiAlwaysOk sigHigh =
      (.ok ⟨true, "Trading signal processed and notification sent", true⟩,
       [tradingPayload sigHigh]) := by
  refine ⟨?_, ?_, by rfl, by rfl⟩
  · intro hlt
    simp only [tradingSignalHandler, if_pos hlt]
  · intro hge
    have hnlt : ¬sig.confidence < 75 := by omega
    refine ⟨?_, ?_, ?_, ?_⟩
    · simp only [tradingSignalHandler, if_neg hnlt]
      by_cases hapi : api (tradingPayload sig) = true
      · simp [hapi]
      · simp [hapi]
    · simp [tradingPayload, mkTargeted]
      cases h : truthyStr sig.userId <;> simp [h, mkTargeted]
    · simp [tradingPayload, mkTargeted]
      cases h : truthyStr sig.userId <;> simp [h, mkTargeted]
    · intro hapi
      simp only [tradingSignalHandler, if_neg hnlt, hapi, if_pos]

/-- Witness for C5: the suppressed branch at confidence 74. -/
theorem trading_signal_threshold_witness :
    sigLow.confidence < 75 ∧
    tradingSignalHandler apiAlwaysOk sigLow =
      (.ok ⟨true, "Signal received but confidence too low for notification",
            false⟩, []) :=
  ⟨by decide,
   (trading_signal_threshold apiAlwaysOk sigLow).1 (by decide)⟩

/-- Projecting the second component of a conditional pair whose branches
share that component. -/
theorem ite_snd_const {α β : Type} (c : Prop) [Decidable c]
    (x y : α) (z : β) : (if c then (x, z) else (y, z)).2 = z := by
  split <;> rfl

/-- The targeting step never alters the heading of the payload. -/
theorem mkTargeted_heading (h c : String) (u : Option String) :
    (mkTargeted h c u).heading = h := by
  simp only [mkTargeted]
  split <;> rfl

/-- C6: the price alert triggers iff alertType is above and the current
price is at or above the target, or alertType is below and the current
price is at or below the target; both comparisons are inclusive (current
100 / target 100 above triggers, current 99 / target 100 does not), and a
non-triggering check responds notified = false without posting anything. -/
theorem price_alert_inclusive (api : OneSignalPayload → Bool)
    (a : PriceAlert) :
    (shouldAlert a = true ↔
      (a.alertType = "above" ∧ a.targetPrice ≤ a.currentPrice) ∨
      (a.alertType = "below" ∧ a.currentPrice ≤ a.targetPrice)) ∧
    (shouldAlert a = false →
      priceAlertHandler api a =
        (.ok ⟨true, "Price checked but alert conditions not met", false⟩,
         [])) ∧
    shouldAlert alertAtTarget = true ∧
    shouldAlert alertBelowTarget = false := by
  refine ⟨?_, ?_, by decide, by decide⟩
  · simp only [shouldAlert]
    split_ifs with h1 h2
    · simp only [Bool.and_eq_true, beq_iff_eq, decide_eq_true_eq] at h1
      simp [h1]
    · simp only [Bool.and_eq_true, beq_iff_eq, decide_eq_true_eq] at h2
      simp [h2]
    · simp only [Bool.and_eq_true, beq_iff_eq, decide_eq_true_eq,
                 not_and] at h1 h2
      constructor
      · intro hf
        cases hf
      · rintro (⟨ha, hle⟩ | ⟨hb, hle⟩)
        · exact absurd hle (h1 ha)
        · exact absurd hle (h2 hb)
  · intro hfalse
    simp [priceAlertHandler, hfalse]

/-- Witness for C6: the just-below-target alert does not trigger and the
handler responds notified = false with no payload posted. -/
theorem price_alert_inclusive_witness :
    shouldAlert alertBelowTarget = false ∧
    priceAlertHandler apiAlwaysOk alertBelowTarget =
      (.ok ⟨true, "Price checked but alert conditions not met", false⟩,
       []) :=
  ⟨by decide,
   (price_alert_inclusive apiAlwaysOk alertBelowTarget).2.1 (by decide)⟩

/-- C7: a market event is suppressed (notified = false, nothing posted)
exactly when severity is low; any other severity posts a payload, whose
title carries the 🚨 marker precisely on high severity, and when the
vendor call succeeds the response has notified = true. -/
theorem market_event_severity (api : OneSignalPayload → Bool)
    (e : MarketEvent) :
    (e.severity.getD "normal" = "low" →
      marketEventHandler api e =
        (.ok ⟨true, "Event received but severity too low for notification",
              false⟩, [])) ∧
    (e.severity.getD "normal" ≠ "low" →
      ∃ p, (marketEventHandler api e).2 = [p] ∧
        p.heading =
          (if e.severity.getD "normal" = "high" then "🚨" else "📊")
            ++ " "
            ++ (if e.title = "" then "📈 Market Event: " ++ e.eventType
                else e.title) ∧
        (api p = true →
          (marketEventHandler api e).1 =
            .ok ⟨true, "Market event processed and notification sent",
                 true⟩)) := by
  constructor
  · intro hlow
    simp [marketEventHandler, hlow]
  · intro hnl
    have hb : (e.severity.getD "normal" == "low") = false := by
      simpa using hnl
    refine ⟨mkTargeted
        ((if e.severity.getD "normal" == "high" then "🚨" else "📊")
          ++ " "
          ++ (if e.title == "" then "📈 Market Event: " ++ e.eventType
              else e.title))
        e.message e.userId, ?_, ?_, ?_⟩
    · simp only [marketEventHandler, hb, Bool.false_eq_true, if_false]
      exact ite_snd_const _ _ _ _
    · rw [mkTargeted_heading]
      by_cases hh : e.severity.getD "normal" = "high" <;>
        by_cases htl : e.title = "" <;>
          simp [hh, htl]
    · intro hapi
      simp only [marketEventHandler, hb, Bool.false_eq_true, if_false]
      rw [hapi]
      simp

/-- Witness for C7: a high-severity event with default title posts a
payload whose title starts with the 🚨 marker. -/
theorem market_event_severity_witness :
    eventHigh.severity.getD "normal" ≠ "low" ∧
    (∃ p, (marketEventHandler apiAlwaysOk eventHigh).2 = [p] ∧
      p.heading =
        (if eventHigh.severity.getD "normal" = "high" then "🚨" else "📊")
          ++ " "
          ++ (if eventHigh.title = "" then
                "📈 Market Event: " ++ eventHigh.eventType
              else eventHigh.title) ∧
      (apiAlwaysOk p = true →
        (marketEventHandler apiAlwaysOk eventHigh).1 =
          .ok ⟨true, "Market event processed and notification sent",
               true⟩)) :=
  ⟨by decide,
   (market_event_severity apiAlwaysOk eventHigh).2 (by decide)⟩

/-- C9: whenever getOneSignalStatus obtains a (truthy) user id while the
subscription-enabled read failed or yielded false, the returned status
reports isSubscribed = true anyway. -/
theorem userid_overrides_unsubscribed (env : OneSignalEnv) (uid : String)
    (h1 : env.hasOneSignal = true)
    (h2 : env.userIdProbe = .ok (some uid)) (h3 : uid ≠ "")
    (h4 : env.subscriptionProbe = .ok false ∨
          ∃ m, env.subscriptionProbe = .error m) :
    (getOneSignalStatus env).isSubscribed = true ∧
    (getOneSignalStatus env).userId = some uid := by
  have ht : truthyStr (some uid) = true := by
    simp [truthyStr, h3]
  rcases h4 with h4 | ⟨m, h4⟩ <;>
    simp [getOneSignalStatus, h1, h2, h4, ht]

/-- Witness for C9: an environment whose subscription probe reads false
but whose user-id ladder yields user-123. -/
theorem userid_overrides_unsubscribed_witness :
    envOverride.hasOneSignal = true ∧
    envOverride.subscriptionProbe = .ok false ∧
    (getOneSignalStatus envOverride).isSubscribed = true :=
  ⟨rfl, rfl,
   (userid_overrides_unsubscribed envOverride "user-123" rfl rfl (by decide)
     (Or.inl rfl)).1⟩
